import Mathlib

/-!
The header threading.h: lock selection, lock macros and thread reclamation

A shallow embedding of `threading.h`.

* The preprocessor part of the header is the function `threading_h`: for a
  build configuration (which of `USE_SPINLOCK`, `BOWTIE_PTHREADS` is defined)
  it returns, in source order, the declarations that survive conditional
  compilation.
* A use `M(l);` of one of the statement macros expands to a statement on the
  lock object `l`; `runInt` runs such a statement when `l` is an `int`, and
  `runSpin` when `l` is a `SpinLock` (whose `Enter` and `Leave` live in
  `spinlock.h` and are parameters here).
* `join` is the inline function of lines 22-33, with the two pthread calls
  answered by an environment, the way `cerr` writes an `int` taken from the
  caller, and every observable action recorded in a trace.
-/

namespace Threading

/-! ## The preprocessor view of the header -/

/-- The build flags tested by the header with `#ifdef`. -/
structure Config where
  USE_SPINLOCK : Bool
  BOWTIE_PTHREADS : Bool
  deriving DecidableEq, Repr

/-- The four macros the header defines. -/
inductive Macro where
  | MUTEX_T
  | MUTEX_INIT
  | MUTEX_LOCK
  | MUTEX_UNLOCK
  deriving DecidableEq, Repr

/-- Replacement text of a macro definition; `l` is the macro parameter. -/
inductive Repl where
  /-- The type name `SpinLock`. -/
  | SpinLock
  /-- The type name `pthread_mutex_t`. -/
  | pthread_mutex_t
  /-- The type name `int`. -/
  | int
  /-- An empty replacement list, as in `#define MUTEX_INIT(l)`. -/
  | nothing
  /-- The text `l.Enter()`. -/
  | Enter
  /-- The text `l.Leave()`. -/
  | Leave
  /-- The text `pthread_mutex_init(&l, NULL)`. -/
  | pthread_mutex_init
  /-- The text `pthread_mutex_lock(&l)`. -/
  | pthread_mutex_lock
  /-- The text `pthread_mutex_unlock(&l)`. -/
  | pthread_mutex_unlock
  /-- The text `l = v` for an integer literal `v`. -/
  | assign (v : Int)
  deriving DecidableEq, Repr

/-- A declaration the header contributes to the translation unit. -/
inductive Decl where
  /-- An `#include` of the named header. -/
  | incl (header : String)
  /-- A `#define` of a macro with its replacement text. -/
  | define (m : Macro) (r : Repl)
  /-- A function definition, by name. -/
  | function (name : String)
  deriving DecidableEq, Repr

/-- The header after conditional compilation (lines 4-41), in source order. -/
def threading_h (cfg : Config) : List Decl :=
  Decl.incl "spinlock.h" ::
  (if cfg.USE_SPINLOCK then
    [ Decl.incl "spinlock.h",
      Decl.define Macro.MUTEX_T Repl.SpinLock,
      Decl.define Macro.MUTEX_INIT Repl.nothing,
      Decl.define Macro.MUTEX_LOCK Repl.Enter,
      Decl.define Macro.MUTEX_UNLOCK Repl.Leave ]
  else if cfg.BOWTIE_PTHREADS then
    [ Decl.incl "pthread.h",
      Decl.define Macro.MUTEX_T Repl.pthread_mutex_t,
      Decl.define Macro.MUTEX_INIT Repl.pthread_mutex_init,
      Decl.define Macro.MUTEX_LOCK Repl.pthread_mutex_lock,
      Decl.define Macro.MUTEX_UNLOCK Repl.pthread_mutex_unlock,
      Decl.function "join" ]
  else
    [ Decl.define Macro.MUTEX_T Repl.int,
      Decl.define Macro.MUTEX_INIT (Repl.assign 0),
      Decl.define Macro.MUTEX_LOCK (Repl.assign 1),
      Decl.define Macro.MUTEX_UNLOCK (Repl.assign 0) ])

/-- All replacement texts given to macro `m` by a list of declarations. -/
def definitionsOf (m : Macro) : List Decl → List Repl
  | [] => []
  | Decl.define m1 r :: ds =>
      if m1 = m then r :: definitionsOf m ds else definitionsOf m ds
  | _ :: ds => definitionsOf m ds

/-- The replacement text a use of macro `m` expands to under `cfg`. -/
def expand (m : Macro) (cfg : Config) : Option Repl :=
  (definitionsOf m (threading_h cfg)).head?

/-- Whether the header defines a function of the given name under `cfg`. -/
def definesFunction (name : String) (cfg : Config) : Bool :=
  (threading_h cfg).contains (Decl.function name)

/-! ## The statement macros on a lock object -/

/-- Effect of the statement `M(l);` on `l` when `l` is an `int` and `M(l)`
expands to `r`. An `int` has no members and is not a `pthread_mutex_t`, so
only the empty statement and an assignment are statements on it. -/
def runInt : Repl → Int → Option Int
  | Repl.nothing, l => some l
  | Repl.assign v, _ => some v
  | _, _ => none

/-- Effect of the statement `M(l);` on `l` when `l` is a `SpinLock` and `M(l)`
expands to `r`; the member functions of `SpinLock` are parameters. -/
def runSpin {σ : Type} (enter leave : σ → σ) : Repl → σ → Option σ
  | Repl.nothing, l => some l
  | Repl.Enter, l => some (enter l)
  | Repl.Leave, l => some (leave l)
  | _, _ => none

/-- Effect of `M(l);` on an `int` lock under `cfg`, for a macro `m`. -/
def useInt (m : Macro) (cfg : Config) (l : Int) : Option Int :=
  (expand m cfg).bind (fun r => runInt r l)

/-- Effect of `M(l);` on a `SpinLock` under `cfg`, for a macro `m`. -/
def useSpin {σ : Type} (enter leave : σ → σ) (m : Macro) (cfg : Config) (l : σ) :
    Option σ :=
  (expand m cfg).bind (fun r => runSpin enter leave r l)

/-- The configuration with neither flag defined (the `int` fallback). -/
def fallback : Config := { USE_SPINLOCK := false, BOWTIE_PTHREADS := false }

/-- The three operations of the lock contract. -/
inductive Op where
  | init
  | acquire
  | release
  deriving DecidableEq, Repr

/-- The macro that implements an operation. -/
def Op.toMacro : Op → Macro
  | Op.init => Macro.MUTEX_INIT
  | Op.acquire => Macro.MUTEX_LOCK
  | Op.release => Macro.MUTEX_UNLOCK

/-- Run a sequence of operations, in order, on an `int` lock under `cfg`. -/
def runOps (cfg : Config) : List Op → Int → Option Int
  | [], l => some l
  | op :: ops, l => (useInt op.toMacro cfg l).bind (runOps cfg ops)

/-! ## Thread reclamation: `join` -/

/-- A thread handle. -/
abbrev pthread_t := Nat

/-- The pthread library as seen by one run of `join`: the status each call
reports for a handle. Each call is made at most once in a run, so a status per
call covers every behaviour of the library, stateful or not. The statuses are
C `int`s; nothing is computed from them, so they are unbounded integers here. -/
structure Pthreads where
  pthread_detach : pthread_t → Int
  pthread_join : pthread_t → Int

/-- An observable action of `join`. -/
inductive Event where
  /-- A call `pthread_detach(th)`. -/
  | pthread_detach (th : pthread_t)
  /-- A call `pthread_join(th, ...)`. -/
  | pthread_join (th : pthread_t)
  /-- Text written to `cerr`. -/
  | cerr (text : String)
  deriving DecidableEq, Repr

/-- The call `pthread_detach(th)`: recorded in the trace, then answered by the
library. -/
def pthread_detach (os : Pthreads) (th : pthread_t) (tr : List Event) :
    Int × List Event :=
  (os.pthread_detach th, tr ++ [Event.pthread_detach th])

/-- The call `pthread_join(th, (void**)&tmp)`: recorded, then answered. -/
def pthread_join (os : Pthreads) (th : pthread_t) (tr : List Event) :
    Int × List Event :=
  (os.pthread_join th, tr ++ [Event.pthread_join th])

/-- The state of the stream `cerr` that `join` inherits from its caller and
never sets: how the stream writes an `int` (the `dec` / `hex` / `oct`,
`showbase`, `showpos` flags and the like). -/
structure Ostream where
  showInt : Int → String

/-- One statement `cerr << text << ret << endl;`: the text, the status as the
stream writes it, and a newline are written to `cerr`. -/
def cerrLine (fmt : Ostream) (text : String) (ret : Int) (tr : List Event) :
    List Event :=
  tr ++ [Event.cerr (text ++ fmt.showInt ret ++ "\n")]

/-- The function `join` of lines 22-33, on a trace, with `cerr` in the state
`fmt`. The result is `ok` for a normal return and `error v` for `throw v`. -/
def join (fmt : Ostream) (os : Pthreads) (th : pthread_t) (tr : List Event) :
    Except Int Unit × List Event :=
  let (ret, tr) := pthread_detach os th tr
  if ret ≠ 0 then
    let tr := cerrLine fmt "Error: pthread_detach returned non-zero status: " ret tr
    (Except.error 1, tr)
  else
    let (ret, tr) := pthread_join os th tr
    if ret ≠ 0 then
      let tr := cerrLine fmt "Error: pthread_join returned non-zero status: " ret tr
      (Except.error 1, tr)
    else
      (Except.ok (), tr)

/-- One run of `join(th)` from an empty trace: how it ended and what it did. -/
def exec (fmt : Ostream) (os : Pthreads) (th : pthread_t) :
    Except Int Unit × List Event :=
  join fmt os th []

/-- Whether an event is a call into the pthread library. -/
def Event.isCall : Event → Bool
  | Event.pthread_detach _ => true
  | Event.pthread_join _ => true
  | Event.cerr _ => false

/-- The pthread calls of a trace, in order. -/
def calls (tr : List Event) : List Event :=
  tr.filter Event.isCall

/-- Everything a trace wrote to `cerr`, in order. -/
def stderrText : List Event → String
  | [] => ""
  | Event.cerr s :: tr => s ++ stderrText tr
  | _ :: tr => stderrText tr

end Threading

namespace Threading

/-! ## Lock selection -/

/-- Claim C1: for every combination of the two build flags the header gives
`MUTEX_T` exactly one definition, and each of the three statement macros
exactly one as well; the selected type follows the precedence table:
`USE_SPINLOCK` defined (with or without `BOWTIE_PTHREADS`) selects `SpinLock`,
only `BOWTIE_PTHREADS` defined selects `pthread_mutex_t`, and neither defined
selects `int`. -/
theorem selection_follows_precedence :
    (∀ (m : Macro) (cfg : Config), (definitionsOf m (threading_h cfg)).length = 1) ∧
    (∀ pth : Bool,
      definitionsOf Macro.MUTEX_T
        (threading_h { USE_SPINLOCK := true, BOWTIE_PTHREADS := pth }) = [Repl.SpinLock]) ∧
    definitionsOf Macro.MUTEX_T
      (threading_h { USE_SPINLOCK := false, BOWTIE_PTHREADS := true })
        = [Repl.pthread_mutex_t] ∧
    definitionsOf Macro.MUTEX_T
      (threading_h { USE_SPINLOCK := false, BOWTIE_PTHREADS := false }) = [Repl.int] := by
  refine ⟨?_, ?_, rfl, rfl⟩
  · rintro m ⟨spin, pth⟩
    cases m <;> cases spin <;> cases pth <;> rfl
  · intro pth
    cases pth <;> rfl

/-- Claim C10: the header defines the function `join` if and only if
`BOWTIE_PTHREADS` is defined and `USE_SPINLOCK` is not; whenever the selected
lock type is `SpinLock` or `int` (both flags defined included) the header
defines no function at all. -/
theorem join_defined_iff_pthreads_only :
    (∀ cfg : Config,
      definesFunction "join" cfg = true ↔
        (cfg.BOWTIE_PTHREADS = true ∧ cfg.USE_SPINLOCK = false)) ∧
    (∀ (cfg : Config) (name : String),
      (expand Macro.MUTEX_T cfg = some Repl.SpinLock ∨
        expand Macro.MUTEX_T cfg = some Repl.int) →
      definesFunction name cfg = false) ∧
    expand Macro.MUTEX_T { USE_SPINLOCK := true, BOWTIE_PTHREADS := true }
      = some Repl.SpinLock := by
  refine ⟨?_, ?_, rfl⟩
  · rintro ⟨spin, pth⟩
    cases spin <;> cases pth <;> decide
  · rintro ⟨spin, pth⟩ name h
    cases spin <;> cases pth <;>
      simp [expand, definitionsOf, threading_h, definesFunction] at h ⊢

/-! ## The statement macros -/

/-- The `int` fallback expands `MUTEX_INIT(l)` to `l = 0`. -/
theorem useInt_init (l : Int) : useInt Macro.MUTEX_INIT fallback l = some 0 := rfl

/-- The `int` fallback expands `MUTEX_LOCK(l)` to `l = 1`. -/
theorem useInt_lock (l : Int) : useInt Macro.MUTEX_LOCK fallback l = some 1 := rfl

/-- The `int` fallback expands `MUTEX_UNLOCK(l)` to `l = 0`. -/
theorem useInt_unlock (l : Int) : useInt Macro.MUTEX_UNLOCK fallback l = some 0 := rfl

/-- Any operation of the `int` fallback completes, and leaves the flag at 1
when it is acquire and at 0 otherwise. -/
theorem useInt_op (op : Op) (l : Int) :
    useInt op.toMacro fallback l = some (if op = Op.acquire then 1 else 0) := by
  cases op <;> rfl

/-- A non-empty sequence of operations on the `int` fallback completes, and
the flag it leaves is decided by the last operation alone. -/
theorem runOps_cons (op : Op) (ops : List Op) (l : Int) :
    runOps fallback (op :: ops) l =
      some (if (op :: ops).getLast? = some Op.acquire then 1 else 0) := by
  induction ops generalizing op l with
  | nil => simp [runOps, useInt_op]
  | cons op2 rest ih =>
    have h := ih op2 (if op = Op.acquire then 1 else 0)
    rw [List.getLast?_cons_cons]
    rw [← h]
    simp only [runOps, useInt_op, Option.some_bind]

/-- Claim C6, as the code has it: under `USE_SPINLOCK` (with or without
`BOWTIE_PTHREADS`) `MUTEX_INIT(l)` expands to nothing and leaves every state of
the `SpinLock` unchanged, whatever `Enter` and `Leave` do; under the `int`
fallback `MUTEX_INIT(l)` is the assignment `l = 0`, which sets the flag to 0
from every prior value and so leaves it unchanged only when it already was 0. -/
theorem init_spin_noop_int_resets :
    (∀ (σ : Type) (enter leave : σ → σ) (pth : Bool) (l : σ),
      useSpin enter leave Macro.MUTEX_INIT
        { USE_SPINLOCK := true, BOWTIE_PTHREADS := pth } l = some l) ∧
    (∀ l : Int, useInt Macro.MUTEX_INIT fallback l = some 0) ∧
    (∀ l : Int, useInt Macro.MUTEX_INIT fallback l = some l ↔ l = 0) := by
  refine ⟨?_, fun l => rfl, ?_⟩
  · intro σ enter leave pth l
    cases pth <;> rfl
  · intro l
    rw [useInt_init]
    constructor
    · intro h
      exact (Option.some.inj h).symm
    · intro h
      rw [h]

/-- Claim C6 fails for the `int` fallback: from a flag holding 1,
`MUTEX_INIT(l)` completes with the flag at 0, not at the prior value 1. -/
theorem init_int_not_noop :
    useInt Macro.MUTEX_INIT fallback 1 = some 0 ∧
    useInt Macro.MUTEX_INIT fallback 1 ≠ some 1 := by
  constructor
  · rfl
  · decide

/-- Claim C7: under the `int` fallback `MUTEX_LOCK(l)` is the plain assignment
`l = 1`: it completes in that one step with the flag at 1 from every prior
value (1 included), its result does not depend on the prior value, and doing
it twice gives the same state as doing it once. -/
theorem lock_int_unconditional :
    expand Macro.MUTEX_LOCK fallback = some (Repl.assign 1) ∧
    (∀ l : Int, useInt Macro.MUTEX_LOCK fallback l = some 1) ∧
    useInt Macro.MUTEX_LOCK fallback 1 = some 1 ∧
    (∀ l l2 : Int,
      useInt Macro.MUTEX_LOCK fallback l = useInt Macro.MUTEX_LOCK fallback l2) ∧
    (∀ l : Int,
      (useInt Macro.MUTEX_LOCK fallback l).bind (useInt Macro.MUTEX_LOCK fallback)
        = useInt Macro.MUTEX_LOCK fallback l) := by
  refine ⟨rfl, fun l => rfl, rfl, fun l l2 => rfl, fun l => rfl⟩

/-- Claim C9: under the `int` fallback, from any flag value, initialize
followed by any finite sequence of initialize / acquire / release operations
completes and leaves the flag at 1 when the last operation performed was
acquire and at 0 otherwise, so always in {0, 1}; initialize alone leaves 0, and
initialize, acquire, release ends at that same 0. -/
theorem int_flag_tracks_last_op :
    (∀ (l0 : Int) (ops : List Op),
      runOps fallback (Op.init :: ops) l0 =
        some (if (Op.init :: ops).getLast? = some Op.acquire then 1 else 0)) ∧
    (∀ (l0 : Int) (ops : List Op),
      runOps fallback (Op.init :: ops) l0 = some 0 ∨
      runOps fallback (Op.init :: ops) l0 = some 1) ∧
    (∀ l0 : Int,
      runOps fallback [Op.init] l0 = some 0 ∧
      runOps fallback [Op.init, Op.acquire, Op.release] l0
        = runOps fallback [Op.init] l0) := by
  refine ⟨fun l0 ops => runOps_cons _ _ _, ?_, fun l0 => ⟨rfl, rfl⟩⟩
  intro l0 ops
  rw [runOps_cons]
  split_ifs
  · exact Or.inr rfl
  · exact Or.inl rfl

/-! ## Thread reclamation -/

/-- The three ways a run of `join` can go, with the trace of each. -/
theorem join_eq (fmt : Ostream) (os : Pthreads) (th : pthread_t) (tr : List Event) :
    join fmt os th tr =
      if os.pthread_detach th ≠ 0 then
        (Except.error 1, tr ++ [Event.pthread_detach th,
          Event.cerr ("Error: pthread_detach returned non-zero status: "
            ++ fmt.showInt (os.pthread_detach th) ++ "\n")])
      else if os.pthread_join th ≠ 0 then
        (Except.error 1, tr ++ [Event.pthread_detach th, Event.pthread_join th,
          Event.cerr ("Error: pthread_join returned non-zero status: "
            ++ fmt.showInt (os.pthread_join th) ++ "\n")])
      else (Except.ok (), tr ++ [Event.pthread_detach th, Event.pthread_join th]) := by
  unfold join pthread_detach pthread_join cerrLine
  split_ifs <;> simp [*]

/-- A run of `join` when detach reports a non-zero status. -/
theorem exec_detach_failed (fmt : Ostream) (os : Pthreads) (th : pthread_t)
    (h : os.pthread_detach th ≠ 0) :
    exec fmt os th =
      (Except.error 1, [Event.pthread_detach th,
        Event.cerr ("Error: pthread_detach returned non-zero status: "
          ++ fmt.showInt (os.pthread_detach th) ++ "\n")]) := by
  rw [exec, join_eq, if_pos h]
  rfl

/-- A run of `join` when detach reports 0 and join a non-zero status. -/
theorem exec_join_failed (fmt : Ostream) (os : Pthreads) (th : pthread_t)
    (h1 : os.pthread_detach th = 0) (h2 : os.pthread_join th ≠ 0) :
    exec fmt os th =
      (Except.error 1, [Event.pthread_detach th, Event.pthread_join th,
        Event.cerr ("Error: pthread_join returned non-zero status: "
          ++ fmt.showInt (os.pthread_join th) ++ "\n")]) := by
  rw [exec, join_eq, if_neg (not_not.mpr h1), if_pos h2]
  rfl

/-- A run of `join` when both calls report 0. -/
theorem exec_both_ok (fmt : Ostream) (os : Pthreads) (th : pthread_t)
    (h1 : os.pthread_detach th = 0) (h2 : os.pthread_join th = 0) :
    exec fmt os th = (Except.ok (), [Event.pthread_detach th, Event.pthread_join th]) := by
  rw [exec, join_eq, if_neg (not_not.mpr h1), if_neg (not_not.mpr h2)]
  rfl

/-- A run of `join` from any trace ends as a run from the empty trace does and
appends that run's events. -/
theorem join_frame (fmt : Ostream) (os : Pthreads) (th : pthread_t) (tr : List Event) :
    join fmt os th tr = ((exec fmt os th).1, tr ++ (exec fmt os th).2) := by
  rw [exec, join_eq, join_eq]
  split_ifs <;> simp

/-- Claim C2: `join(th)` returns normally if and only if detach reported 0 and
join reported 0; with any other pair of statuses it ends in `throw 1`. -/
theorem join_returns_iff_both_zero (fmt : Ostream) (os : Pthreads) (th : pthread_t) :
    ((exec fmt os th).1 = Except.ok () ↔
      (os.pthread_detach th = 0 ∧ os.pthread_join th = 0)) ∧
    ((exec fmt os th).1 = Except.error 1 ↔
      ¬ (os.pthread_detach th = 0 ∧ os.pthread_join th = 0)) := by
  by_cases h1 : os.pthread_detach th = 0
  · by_cases h2 : os.pthread_join th = 0
    · rw [exec_both_ok fmt os th h1 h2]
      simp [h1, h2]
    · rw [exec_join_failed fmt os th h1 h2]
      simp [h1, h2]
  · rw [exec_detach_failed fmt os th h1]
    simp [h1]

/-- Claim C4: in every run of `join(th)` the pthread calls made are either
detach alone or detach followed by join, so detach is called exactly once and
first, and join at most once; when the run returns normally the calls are
exactly detach then join, and nothing was written to `cerr`. -/
theorem detach_once_then_join_at_most_once (fmt : Ostream) (os : Pthreads) (th : pthread_t) :
    (calls (exec fmt os th).2 = [Event.pthread_detach th] ∨
      calls (exec fmt os th).2 = [Event.pthread_detach th, Event.pthread_join th]) ∧
    (calls (exec fmt os th).2).count (Event.pthread_detach th) = 1 ∧
    (calls (exec fmt os th).2).head? = some (Event.pthread_detach th) ∧
    (calls (exec fmt os th).2).count (Event.pthread_join th) ≤ 1 ∧
    ((exec fmt os th).1 = Except.ok () →
      (exec fmt os th).2 = [Event.pthread_detach th, Event.pthread_join th] ∧
      calls (exec fmt os th).2 = [Event.pthread_detach th, Event.pthread_join th] ∧
      stderrText (exec fmt os th).2 = "") := by
  by_cases h1 : os.pthread_detach th = 0
  · by_cases h2 : os.pthread_join th = 0
    · rw [exec_both_ok fmt os th h1 h2]
      simp [calls, Event.isCall, stderrText]
    · rw [exec_join_failed fmt os th h1 h2]
      simp [calls, Event.isCall, stderrText]
  · rw [exec_detach_failed fmt os th h1]
    simp [calls, Event.isCall, stderrText]

end Threading
